import Mathlib

/-!
Shallow embedding of the wallet ledger core of ports-and-adapters-architecture.

Sources embedded:
- internal/domain/user.go (Wallet, Wallet.Credit, Wallet.Debit, Wallet.IsActive)
- internal/domain transaction entity (Transaction, NewTransaction,
  NewTransferTransaction, Complete, Fail)
- internal/domain/payment.go (Payment, NewPayment, Complete/Fail/Cancel,
  SetExternalInfo)
- internal/usecase/wallet_service.go (Deposit, Withdraw, Transfer)
- the transaction service (ReconcileFailedTransactions)
- the payment service (ProcessPayment)
- internal/adapters/persistence/memory (wallet, transaction and payment
  repositories: the reference Ledger Store implementation).

Conventions: Go int is embedded as Int (no operation in the verified paths
can overflow a 64-bit int on the inputs considered); time.Time is embedded
as Int (seconds); every function that reads the clock takes an explicit now
argument. Repository find operations are embedded with the in-memory adapter
semantics: they return an Option and never fail; Save/Create never fail;
Update/UpdateStatus fail exactly when the id is absent. Cache access and the
fire-and-forget event publication have no effect on the ledger state and are
omitted. Errors are embedded as an inductive type with one constructor per
Go sentinel error value, plus a constructor for fmt.Errorf wrapping.
-/

namespace EWallet

/-- Decidable equality for Except values, used to evaluate concrete runs. -/
instance {ε α : Type} [DecidableEq ε] [DecidableEq α] : DecidableEq (Except ε α) :=
  fun x y =>
    match x, y with
    | .ok a, .ok b =>
        if h : a = b then isTrue (by rw [h])
        else isFalse (by intro hc; cases hc; exact h rfl)
    | .error a, .error b =>
        if h : a = b then isTrue (by rw [h])
        else isFalse (by intro hc; cases hc; exact h rfl)
    | .ok _, .error _ => isFalse (by intro hc; cases hc)
    | .error _, .ok _ => isFalse (by intro hc; cases hc)

inductive WalletStatus where
  | active
  | inactive
deriving DecidableEq

inductive TransactionType where
  | deposit
  | withdrawal
  | transfer
deriving DecidableEq

/-- Transaction statuses. The unspecified constructor models the Go zero
value of the TransactionStatus string type: NewTransaction leaves Status at
the zero value and the callers assign PENDING afterwards. -/
inductive TransactionStatus where
  | unspecified
  | pending
  | completed
  | failed
deriving DecidableEq

inductive PaymentProvider where
  | midtrans
  | doku
  | stripe
deriving DecidableEq

inductive PaymentStatus where
  | pending
  | completed
  | failed
  | cancelled
deriving DecidableEq

inductive PaymentMethod where
  | bankTransfer
  | creditCard
  | eWallet
deriving DecidableEq

/-- Error values. One constructor per Go sentinel error; wrapped models
fmt.Errorf with a context message around an inner error; external models an
opaque error produced by an injected collaborator failure. -/
inductive Err where
  | errWalletNotFound
  | errUserNotFound
  | errInsufficientBalance
  | errInvalidAmount
  | errWalletAlreadyExists
  | errTransactionNotFound
  | errDomainInsufficientBalance
  | errDomainInvalidAmount
  | errWalletNotActive
  | errInvalidTransactionAmount
  | errInvalidTransactionType
  | errInvalidPaymentAmount
  | errPaymentAlreadyProcessed
  | errPaymentNotFound
  | errPaymentGatewayFailed
  | errCurrencyMismatch
  | errProviderNotSupported
  | errRepoNotFound (id : Int)
  | wrapped (msg : String) (inner : Err)
  | external (msg : String)
  | reconcileAggregate (reconciled failed : Nat)
deriving DecidableEq

structure Wallet where
  id : Int
  userID : Int
  balance : Int
  currencyCode : String
  description : String
  status : WalletStatus
  createdAt : Int
  updatedAt : Int
deriving DecidableEq

structure Transaction where
  id : Int
  walletID : Int
  txType : TransactionType
  amount : Int
  status : TransactionStatus
  reference : String
  description : String
  toWalletID : Option Int
  createdAt : Int
  updatedAt : Int
  completedAt : Option Int
deriving DecidableEq

structure Payment where
  id : Int
  transactionID : Int
  amount : Int
  provider : PaymentProvider
  status : PaymentStatus
  externalID : String
  paymentURL : String
  description : String
  details : List (String × String)
  createdAt : Int
  updatedAt : Int
  completedAt : Option Int
deriving DecidableEq

/-- internal/domain user.go IsActive. -/
def Wallet.IsActive (w : Wallet) : Bool :=
  w.status = WalletStatus.active

/-- internal/domain user.go lines 124-142, Wallet.Credit. The source text
checks w.Balance < amount and returns ErrInsufficientBalance before adding,
exactly as Debit does. -/
def Wallet.Credit (w : Wallet) (amount now : Int) : Except Err Wallet :=
  if amount ≤ 0 then .error .errDomainInvalidAmount
  else if w.status ≠ WalletStatus.active then .error .errWalletNotActive
  else if w.balance < amount then .error .errDomainInsufficientBalance
  else .ok { w with balance := w.balance + amount, updatedAt := now }

/-- internal/domain user.go lines 144-162, Wallet.Debit. -/
def Wallet.Debit (w : Wallet) (amount now : Int) : Except Err Wallet :=
  if amount ≤ 0 then .error .errDomainInvalidAmount
  else if w.status ≠ WalletStatus.active then .error .errWalletNotActive
  else if w.balance < amount then .error .errDomainInsufficientBalance
  else .ok { w with balance := w.balance - amount, updatedAt := now }

/-- Domain NewTransaction: validates amount and type, leaves Status at the
zero value. -/
def NewTransaction (walletID : Int) (txType : TransactionType) (amount : Int)
    (description : String) (now : Int) : Except Err Transaction :=
  if amount ≤ 0 then .error .errInvalidTransactionAmount
  else if txType ≠ TransactionType.deposit ∧ txType ≠ TransactionType.withdrawal
      ∧ txType ≠ TransactionType.transfer then .error .errInvalidTransactionType
  else .ok { id := 0, walletID := walletID, txType := txType, amount := amount,
             status := TransactionStatus.unspecified, reference := "",
             description := description, toWalletID := none,
             createdAt := now, updatedAt := now, completedAt := none }

/-- Domain NewTransferTransaction: sets Status to PENDING directly. -/
def NewTransferTransaction (fromWalletId toWalletID amount : Int)
    (description : String) (now : Int) : Except Err Transaction :=
  if amount ≤ 0 then .error .errInvalidTransactionAmount
  else .ok { id := 0, walletID := fromWalletId, txType := TransactionType.transfer,
             amount := amount, status := TransactionStatus.pending, reference := "",
             description := description, toWalletID := some toWalletID,
             createdAt := now, updatedAt := now, completedAt := none }

/-- Transaction.Complete: unconditionally marks COMPLETED. -/
def Transaction.Complete (t : Transaction) (now : Int) : Transaction :=
  { t with status := TransactionStatus.completed, completedAt := some now,
           updatedAt := now }

/-- Transaction.Fail: unconditionally marks FAILED. -/
def Transaction.Fail (t : Transaction) (now : Int) : Transaction :=
  { t with status := TransactionStatus.failed, updatedAt := now }

/-- Domain NewPayment. -/
def NewPayment (transactionID amount : Int) (provider : PaymentProvider)
    (description : String) (now : Int) : Except Err Payment :=
  if amount ≤ 0 then .error .errInvalidPaymentAmount
  else .ok { id := 0, transactionID := transactionID, amount := amount,
             provider := provider, status := PaymentStatus.pending,
             externalID := "", paymentURL := "", description := description,
             details := [], createdAt := now, updatedAt := now,
             completedAt := none }

/-- Payment.Fail: only a PENDING payment may transition. -/
def Payment.Fail (p : Payment) (now : Int) : Except Err Payment :=
  if p.status ≠ PaymentStatus.pending then .error .errPaymentAlreadyProcessed
  else .ok { p with status := PaymentStatus.failed, updatedAt := now }

/-- Payment.Complete: only a PENDING payment may transition. -/
def Payment.Complete (p : Payment) (now : Int) : Except Err Payment :=
  if p.status ≠ PaymentStatus.pending then .error .errPaymentAlreadyProcessed
  else .ok { p with status := PaymentStatus.completed, completedAt := some now,
                    updatedAt := now }

/-- Payment.Cancel: only a PENDING payment may transition. -/
def Payment.Cancel (p : Payment) (now : Int) : Except Err Payment :=
  if p.status ≠ PaymentStatus.pending then .error .errPaymentAlreadyProcessed
  else .ok { p with status := PaymentStatus.cancelled, updatedAt := now }

/-- Payment.SetExternalInfo: records gateway data; a nil details map leaves
the existing details. -/
def Payment.SetExternalInfo (p : Payment) (externalID paymentURL : String)
    (details : Option (List (String × String))) (now : Int) : Payment :=
  { p with externalID := externalID, paymentURL := paymentURL,
           details := match details with
                      | some d => d
                      | none => p.details,
           updatedAt := now }

/-! ## Ledger Store (in-memory adapter semantics)

The in-memory repositories are Go maps keyed by entity id. They are embedded
as lists with first-match lookup and first-match replacement, which agrees
with map semantics whenever ids are unique. -/

structure LedgerState where
  wallets : List Wallet
  walletNextID : Int
  transactions : List Transaction
  txNextID : Int
  payments : List Payment
  paymentNextID : Int
deriving DecidableEq

def findWallet : List Wallet → Int → Option Wallet
  | [], _ => none
  | w :: ws, id => if w.id = id then some w else findWallet ws id

def putWallet : List Wallet → Wallet → List Wallet
  | [], w => [w]
  | x :: xs, w => if x.id = w.id then w :: xs else x :: putWallet xs w

def findTx : List Transaction → Int → Option Transaction
  | [], _ => none
  | t :: ts, id => if t.id = id then some t else findTx ts id

def putTx : List Transaction → Transaction → List Transaction
  | [], t => [t]
  | x :: xs, t => if x.id = t.id then t :: xs else x :: putTx xs t

def findPayment : List Payment → Int → Option Payment
  | [], _ => none
  | p :: ps, id => if p.id = id then some p else findPayment ps id

def putPayment : List Payment → Payment → List Payment
  | [], p => [p]
  | x :: xs, p => if x.id = p.id then p :: xs else x :: putPayment xs p

/-- Memory wallet repository Save: assigns nextID when the id is 0, stores a
copy, never fails. -/
def walletSave (st : LedgerState) (w0 : Wallet) : Except Err (LedgerState × Wallet) :=
  if w0.id = 0 then
    let w := { w0 with id := st.walletNextID }
    .ok ({ st with wallets := putWallet st.wallets w,
                   walletNextID := st.walletNextID + 1 }, w)
  else
    .ok ({ st with wallets := putWallet st.wallets w0 }, w0)

/-- Memory transaction repository Create: assigns nextID when the id is 0,
stores a copy, never fails. -/
def txCreate (st : LedgerState) (t0 : Transaction) : Except Err (LedgerState × Transaction) :=
  if t0.id = 0 then
    let t := { t0 with id := st.txNextID }
    .ok ({ st with transactions := putTx st.transactions t,
                   txNextID := st.txNextID + 1 }, t)
  else
    .ok ({ st with transactions := putTx st.transactions t0 }, t0)

/-- Memory transaction repository Update: fails when the id is absent. -/
def txUpdate (st : LedgerState) (t : Transaction) : Except Err LedgerState :=
  if (findTx st.transactions t.id).isSome then
    .ok { st with transactions := putTx st.transactions t }
  else .error (.errRepoNotFound t.id)

/-- A repository Update whose error the caller discards, as in the
underscore assignments of the service code. -/
def txUpdateD (st : LedgerState) (t : Transaction) : LedgerState :=
  match txUpdate st t with
  | .ok st' => st'
  | .error _ => st

/-- Memory transaction repository UpdateStatus: mutates the stored record in
place; sets CompletedAt only when the new status is COMPLETED. -/
def setTxStatus : List Transaction → Int → TransactionStatus → Int → List Transaction
  | [], _, _, _ => []
  | t :: ts, id, s, now =>
    if t.id = id then
      { t with status := s, updatedAt := now,
               completedAt := if s = TransactionStatus.completed then some now
                              else t.completedAt } :: ts
    else t :: setTxStatus ts id s now

def txUpdateStatus (st : LedgerState) (id : Int) (s : TransactionStatus) (now : Int) :
    Except Err LedgerState :=
  if (findTx st.transactions id).isSome then
    .ok { st with transactions := setTxStatus st.transactions id s now }
  else .error (.errRepoNotFound id)

def txUpdateStatusD (st : LedgerState) (id : Int) (s : TransactionStatus) (now : Int) :
    LedgerState :=
  match txUpdateStatus st id s now with
  | .ok st' => st'
  | .error _ => st

/-- Memory transaction repository FindPendingTransactions: PENDING records
strictly older than the cutoff. -/
def findPendingTransactions : List Transaction → Int → List Transaction
  | [], _ => []
  | t :: ts, olderThan =>
    if t.status = TransactionStatus.pending ∧ t.createdAt < olderThan then
      t :: findPendingTransactions ts olderThan
    else findPendingTransactions ts olderThan

/-- Memory payment repository Create. -/
def paymentCreate (st : LedgerState) (p0 : Payment) : Except Err (LedgerState × Payment) :=
  if p0.id = 0 then
    let p := { p0 with id := st.paymentNextID }
    .ok ({ st with payments := putPayment st.payments p,
                   paymentNextID := st.paymentNextID + 1 }, p)
  else
    .ok ({ st with payments := putPayment st.payments p0 }, p0)

/-- Memory payment repository Update: fails when the id is absent. -/
def paymentUpdate (st : LedgerState) (p : Payment) : Except Err LedgerState :=
  if (findPayment st.payments p.id).isSome then
    .ok { st with payments := putPayment st.payments p }
  else .error (.errRepoNotFound p.id)

def paymentUpdateD (st : LedgerState) (p : Payment) : LedgerState :=
  match paymentUpdate st p with
  | .ok st' => st'
  | .error _ => st

/-! ## WalletService (internal/usecase/wallet_service.go) -/

/-- wallet_service.go lines 238-245, the credit step of Deposit. On a credit
error the source marks the transaction FAILED and persists it but does not
return: control falls through to the wallet save. The triple returned is the
wallet object, the transaction object and the store as they stand when the
fall-through happens. -/
def depositCreditStep (st : LedgerState) (wallet : Wallet) (tx : Transaction)
    (amount now : Int) : Wallet × Transaction × LedgerState :=
  match wallet.Credit amount now with
  | .error _ =>
      let txf := tx.Fail now
      (wallet, txf, txUpdateD st txf)
  | .ok w' => (w', tx, st)

/-- wallet_service.go lines 246-290: persist the wallet, mark the
transaction COMPLETED, persist it and return it. -/
def depositFinish (st : LedgerState) (wallet : Wallet) (tx : Transaction) (now : Int) :
    Except Err Transaction × LedgerState :=
  match walletSave st wallet with
  | .error e =>
      let txf := tx.Fail now
      (.error (.wrapped "failed to update wallet balance" e), txUpdateD st txf)
  | .ok (st1, _) =>
      let txc := tx.Complete now
      match txUpdate st1 txc with
      | .error e => (.error (.wrapped "failed to update transaction status" e), st1)
      | .ok st2 => (.ok txc, st2)

/-- WalletService.Deposit, wallet_service.go lines 204-290. -/
def deposit (st : LedgerState) (walletID amount : Int) (description : String)
    (now : Int) : Except Err Transaction × LedgerState :=
  if amount ≤ 0 then (.error .errInvalidAmount, st)
  else
    match findWallet st.wallets walletID with
    | none => (.error .errWalletNotFound, st)
    | some wallet =>
      if wallet.IsActive = false then (.error .errWalletNotActive, st)
      else
        match NewTransaction walletID TransactionType.deposit amount description now with
        | .error e => (.error e, st)
        | .ok tx0 =>
          let tx1 := { tx0 with status := TransactionStatus.pending }
          match txCreate st tx1 with
          | .error e => (.error (.wrapped "failed to create transaction" e), st)
          | .ok (st1, tx2) =>
            let (w', tx', st2) := depositCreditStep st1 wallet tx2 amount now
            depositFinish st2 w' tx' now

/-- WalletService.Withdraw, wallet_service.go lines 293-382. The balance
pre-check runs before the transaction is created. -/
def withdraw (st : LedgerState) (walletID amount : Int) (description : String)
    (now : Int) : Except Err Transaction × LedgerState :=
  if amount ≤ 0 then (.error .errInvalidAmount, st)
  else
    match findWallet st.wallets walletID with
    | none => (.error .errWalletNotFound, st)
    | some wallet =>
      if wallet.balance < amount then (.error .errInsufficientBalance, st)
      else
        match NewTransaction walletID TransactionType.withdrawal amount description now with
        | .error e => (.error e, st)
        | .ok tx0 =>
          let tx1 := { tx0 with status := TransactionStatus.pending }
          match txCreate st tx1 with
          | .error e => (.error (.wrapped "failed to create transaction" e), st)
          | .ok (st1, tx2) =>
            match wallet.Debit amount now with
            | .error e =>
                let txf := tx2.Fail now
                (.error e, txUpdateD st1 txf)
            | .ok w' =>
                match walletSave st1 w' with
                | .error e =>
                    let txf := tx2.Fail now
                    (.error (.wrapped "failed to update wallet balance" e), txUpdateD st1 txf)
                | .ok (st2, _) =>
                    let txc := tx2.Complete now
                    match txUpdate st2 txc with
                    | .error e => (.error (.wrapped "failed to update transaction" e), st2)
                    | .ok st3 => (.ok txc, st3)

/-- WalletService.Transfer, wallet_service.go lines 385-506. The credit
failure branch of the source calls transactionRepo.Updated, an evident typo
for Update; it is embedded as the discarded update it performs. The
destination-save failure branch performs the compensating credit whose
result the source ignores. -/
def transfer (st : LedgerState) (fromWalletID toWalletID amount : Int)
    (description : String) (now : Int) : Except Err Transaction × LedgerState :=
  if amount ≤ 0 then (.error .errInvalidAmount, st)
  else
    match findWallet st.wallets fromWalletID with
    | none => (.error .errWalletNotFound, st)
    | some fromWallet =>
      match findWallet st.wallets toWalletID with
      | none => (.error .errWalletNotFound, st)
      | some toWallet =>
        if fromWallet.currencyCode ≠ toWallet.currencyCode then
          (.error .errCurrencyMismatch, st)
        else
          match NewTransferTransaction fromWalletID toWalletID amount description now with
          | .error e => (.error e, st)
          | .ok tx0 =>
            match txCreate st tx0 with
            | .error e => (.error (.wrapped "failed to create transaction" e), st)
            | .ok (st1, tx) =>
              match fromWallet.Debit amount now with
              | .error e =>
                  let txf := tx.Fail now
                  (.error e, txUpdateD st1 txf)
              | .ok fromW =>
                match toWallet.Credit amount now with
                | .error e =>
                    let txf := tx.Fail now
                    (.error e, txUpdateD st1 txf)
                | .ok toW =>
                  match walletSave st1 fromW with
                  | .error e =>
                      let txf := tx.Fail now
                      (.error (.wrapped "failed to update source wallet" e), txUpdateD st1 txf)
                  | .ok (st2, _) =>
                    match walletSave st2 toW with
                    | .error e =>
                        let txf := tx.Fail now
                        let st3 := txUpdateD st2 txf
                        let fromW2 := match fromW.Credit amount now with
                                      | .ok x => x
                                      | .error _ => fromW
                        let st4 := match walletSave st3 fromW2 with
                                   | .ok (s, _) => s
                                   | .error _ => st3
                        (.error (.wrapped "failed to update destination wallet" e), st4)
                    | .ok (st3, _) =>
                        let txc := tx.Complete now
                        match txUpdate st3 txc with
                        | .error e =>
                            (.error (.wrapped "failed to update transaction status" e), st3)
                        | .ok st4 => (.ok txc, st4)

/-! ## TransactionService.ReconcileFailedTransactions

The loop walks the PENDING transactions older than 30 minutes and calls the
transaction repository UpdateStatus on each; an error only increments the
failure counter. The service is written against the repository port, whose
UpdateStatus may fail for reasons of its own, so the embedding takes an
oracle ok giving the outcome of the injected repository call per id; the
in-memory adapter corresponds to the oracle that is always true. -/

def reconLoop (ok : Int → Bool) (now : Int) :
    List Transaction → LedgerState → Nat → Nat → LedgerState × Nat × Nat
  | [], st, reconciled, failed => (st, reconciled, failed)
  | t :: ts, st, reconciled, failed =>
    match (if ok t.id then txUpdateStatus st t.id TransactionStatus.failed now
           else .error (Err.external "update failed")) with
    | .error _ => reconLoop ok now ts st reconciled (failed + 1)
    | .ok st' => reconLoop ok now ts st' (reconciled + 1) failed

/-- TransactionService.ReconcileFailedTransactions: cutoff is 30 minutes
before now; returns an aggregate error naming both counts when any update
failed. -/
def reconcileFailedTransactions (st : LedgerState) (now : Int) (ok : Int → Bool) :
    Except Err Unit × LedgerState :=
  let cutoffTime := now - 30 * 60
  match reconLoop ok now (findPendingTransactions st.transactions cutoffTime) st 0 0 with
  | (st', reconciled, failed) =>
    if failed > 0 then (.error (.reconcileAggregate reconciled failed), st')
    else (.ok (), st')

/-! ## PaymentService.ProcessPayment

The gateway registry is the map built by RegisterGateway, embedded as a
function from provider to an optional gateway; a gateway is its ProcessPayment
behavior, a function from the derived request to a response or an error. -/

structure PaymentRequest where
  walletID : Int
  amount : Int
  provider : PaymentProvider
  description : String
  redirectURL : String
  callbackURL : String
deriving DecidableEq

structure GatewayRequest where
  amount : Int
  currency : String
  description : String
  referenceID : String
  customerName : String
  customerEmail : String
  paymentMethod : PaymentMethod
  redirectURL : String
  callbackURL : String
  expiryDuration : Int
deriving DecidableEq

/-- Gateway response fields the ProcessPayment path reads; the status field
is only read by VerifyPayment, which is not embedded. -/
structure GatewayResponse where
  externalID : String
  paymentURL : String
  details : Option (List (String × String))
deriving DecidableEq

def mapToExternalPaymentMethod : PaymentProvider → PaymentMethod
  | PaymentProvider.midtrans => PaymentMethod.bankTransfer
  | PaymentProvider.stripe => PaymentMethod.creditCard
  | _ => PaymentMethod.eWallet

/-- The gateway request ProcessPayment derives from the service request, the
resolved wallet and the payment id. -/
def mkGatewayRequest (req : PaymentRequest) (wallet : Wallet) (paymentID : Int) :
    GatewayRequest :=
  { amount := req.amount
    currency := wallet.currencyCode
    description := req.description
    referenceID := "PAY-" ++ toString paymentID
    customerName := "User-" ++ toString wallet.userID
    customerEmail := "user" ++ toString wallet.userID ++ "@example.com"
    paymentMethod := mapToExternalPaymentMethod req.provider
    redirectURL := req.redirectURL
    callbackURL := req.callbackURL
    expiryDuration := 30 }

/-- PaymentService.ProcessPayment. On a gateway error the source calls
payment.Fail dropping its result, persists the payment and the FAILED
transaction status with discarded errors, and returns the gateway error
wrapped in the message payment gateway error. -/
def processPayment (st : LedgerState) (req : PaymentRequest)
    (gateways : PaymentProvider → Option (GatewayRequest → Except Err GatewayResponse))
    (now : Int) : Except Err Payment × LedgerState :=
  if req.amount ≤ 0 then (.error .errInvalidAmount, st)
  else
    match findWallet st.wallets req.walletID with
    | none => (.error .errWalletNotFound, st)
    | some wallet =>
      match gateways req.provider with
      | none => (.error .errProviderNotSupported, st)
      | some gw =>
        match NewTransaction req.walletID TransactionType.deposit req.amount
            req.description now with
        | .error e => (.error (.wrapped "failed to create transaction" e), st)
        | .ok tx0 =>
          let tx1 := { tx0 with status := TransactionStatus.pending }
          match txCreate st tx1 with
          | .error e => (.error (.wrapped "failed to save transaction" e), st)
          | .ok (st1, tx2) =>
            match NewPayment tx2.id req.amount req.provider req.description now with
            | .error e =>
                (.error (.wrapped "failed to create payment" e),
                 txUpdateStatusD st1 tx2.id TransactionStatus.failed now)
            | .ok p0 =>
              match paymentCreate st1 p0 with
              | .error e =>
                  (.error (.wrapped "failed to save payment" e),
                   txUpdateStatusD st1 tx2.id TransactionStatus.failed now)
              | .ok (st2, p1) =>
                match gw (mkGatewayRequest req wallet p1.id) with
                | .error gerr =>
                    let p2 := match p1.Fail now with
                              | .ok q => q
                              | .error _ => p1
                    let st3 := paymentUpdateD st2 p2
                    let st4 := txUpdateStatusD st3 tx2.id TransactionStatus.failed now
                    (.error (.wrapped "payment gateway error" gerr), st4)
                | .ok resp =>
                    let p2 := p1.SetExternalInfo resp.externalID resp.paymentURL
                                resp.details now
                    match paymentUpdate st2 p2 with
                    | .error e => (.error (.wrapped "failed to update payment" e), st2)
                    | .ok st3 => (.ok p2, st3)

/-! ## Observers used by the concrete evaluations -/

def okStatus : Except Err Transaction → Option TransactionStatus
  | .ok t => some t.status
  | .error _ => none

def okAmount : Except Err Transaction → Option Int
  | .ok t => some t.amount
  | .error _ => none

def okTxType : Except Err Transaction → Option TransactionType
  | .ok t => some t.txType
  | .error _ => none

/-- The record update the memory UpdateStatus performs for a FAILED status:
status and updatedAt change, completedAt is kept. -/
def failMark (t : Transaction) (now : Int) : Transaction :=
  { t with status := TransactionStatus.failed, updatedAt := now }

/-- Mark as FAILED every store record whose id occurs in the worklist. -/
def markList (l : List Transaction) : List Transaction → Int → List Transaction
  | [], _ => []
  | x :: xs, now =>
    (if l.any (fun t => t.id = x.id) then failMark x now else x) :: markList l xs now

/-! ## Concrete ledger states used by the claim evaluations -/

/-- Fresh ACTIVE USD wallet with balance 0, id 1 (the Deposit scenario of the
spec and of TestWalletService underscore Deposit). -/
def wD1 : Wallet :=
  { id := 1, userID := 1, balance := 0, currencyCode := "USD", description := "",
    status := WalletStatus.active, createdAt := 0, updatedAt := 0 }

def stD1 : LedgerState :=
  { wallets := [wD1], walletNextID := 2, transactions := [], txNextID := 1,
    payments := [], paymentNextID := 1 }

/-- Wallet A of the Transfer scenario: USD, balance 200, ACTIVE. -/
def wD2a : Wallet :=
  { id := 1, userID := 1, balance := 200, currencyCode := "USD", description := "",
    status := WalletStatus.active, createdAt := 0, updatedAt := 0 }

/-- Wallet B of the Transfer scenario: USD, balance 0, ACTIVE. -/
def wD2b : Wallet :=
  { id := 2, userID := 2, balance := 0, currencyCode := "USD", description := "",
    status := WalletStatus.active, createdAt := 0, updatedAt := 0 }

def stD2 : LedgerState :=
  { wallets := [wD2a, wD2b], walletNextID := 3, transactions := [], txNextID := 1,
    payments := [], paymentNextID := 1 }

def wD3 : Wallet :=
  { id := 1, userID := 1, balance := 0, currencyCode := "USD", description := "",
    status := WalletStatus.active, createdAt := 0, updatedAt := 0 }

def stD3 : LedgerState :=
  { wallets := [wD3], walletNextID := 2, transactions := [], txNextID := 1,
    payments := [], paymentNextID := 1 }

/-- The PENDING transaction the Deposit call under C3 builds and persists:
NewTransaction followed by the Status assignment, as in the service code. -/
def txD3 : Transaction :=
  { id := 0, walletID := 1, txType := TransactionType.deposit, amount := 100,
    status := TransactionStatus.pending, reference := "", description := "d",
    toWalletID := none, createdAt := 9, updatedAt := 9, completedAt := none }

/-- The ledger as the Deposit call under C3 leaves it right after the credit
step: the transaction has been created, the credit has failed and the
FAILED transaction has been persisted. This is the exact mid-call state of
deposit stD3 1 100 d 9, which continues from here into depositFinish. -/
def stD3mid : LedgerState :=
  match txCreate stD3 txD3 with
  | .ok (st1, tx2) => (depositCreditStep st1 wD3 tx2 100 9).2.2
  | .error _ => stD3

def wD4 : Wallet :=
  { id := 1, userID := 1, balance := 10, currencyCode := "USD", description := "",
    status := WalletStatus.active, createdAt := 0, updatedAt := 0 }

def stD4 : LedgerState :=
  { wallets := [wD4], walletNextID := 2, transactions := [], txNextID := 1,
    payments := [], paymentNextID := 1 }

def wD6 : Wallet :=
  { id := 1, userID := 1, balance := 100, currencyCode := "USD", description := "",
    status := WalletStatus.active, createdAt := 0, updatedAt := 0 }

def stD6 : LedgerState :=
  { wallets := [wD6], walletNextID := 2, transactions := [], txNextID := 1,
    payments := [], paymentNextID := 1 }

def stD7 : LedgerState :=
  { wallets := [wD6], walletNextID := 2, transactions := [], txNextID := 1,
    payments := [], paymentNextID := 1 }

def wD10 : Wallet :=
  { id := 7, userID := 3, balance := 50, currencyCode := "IDR", description := "",
    status := WalletStatus.active, createdAt := 0, updatedAt := 0 }

/-! ## Store lemmas -/

theorem findWallet_some_id {ws : List Wallet} {id : Int} {w : Wallet}
    (h : findWallet ws id = some w) : w.id = id := by
  induction ws with
  | nil => simp [findWallet] at h
  | cons x xs ih =>
    rw [findWallet] at h
    split at h
    · cases h
      assumption
    · exact ih h

theorem findWallet_putWallet_self (ws : List Wallet) (w : Wallet) :
    findWallet (putWallet ws w) w.id = some w := by
  induction ws with
  | nil => simp [putWallet, findWallet]
  | cons x xs ih =>
    by_cases hx : x.id = w.id
    · simp [putWallet, hx, findWallet]
    · simp [putWallet, hx, findWallet, ih]

theorem findWallet_putWallet_other (ws : List Wallet) (w : Wallet) (id : Int)
    (h : id ≠ w.id) :
    findWallet (putWallet ws w) id = findWallet ws id := by
  induction ws with
  | nil => simp [putWallet, findWallet, Ne.symm h]
  | cons x xs ih =>
    by_cases hx : x.id = w.id
    · rw [putWallet, if_pos hx, findWallet, findWallet, if_neg (Ne.symm h),
          if_neg (hx ▸ Ne.symm h)]
    · rw [putWallet, if_neg hx, findWallet, findWallet]
      split
      · rfl
      · exact ih

/-- C8 witness data: one transaction PENDING for 45 minutes (created 2700
seconds before now = 10000) and one PENDING for 5 minutes (300 seconds). -/
def txD8old : Transaction :=
  { id := 1, walletID := 1, txType := TransactionType.deposit, amount := 10,
    status := TransactionStatus.pending, reference := "", description := "",
    toWalletID := none, createdAt := 7300, updatedAt := 7300, completedAt := none }

def txD8new : Transaction :=
  { id := 2, walletID := 1, txType := TransactionType.deposit, amount := 10,
    status := TransactionStatus.pending, reference := "", description := "",
    toWalletID := none, createdAt := 9700, updatedAt := 9700, completedAt := none }

def stD8 : LedgerState :=
  { wallets := [], walletNextID := 1, transactions := [txD8old, txD8new],
    txNextID := 3, payments := [], paymentNextID := 1 }

/-- C9 data: ACTIVE USD wallet id 1, empty stores. -/
def wD9 : Wallet :=
  { id := 1, userID := 4, balance := 0, currencyCode := "USD", description := "",
    status := WalletStatus.active, createdAt := 0, updatedAt := 0 }

def stD9 : LedgerState :=
  { wallets := [wD9], walletNextID := 2, transactions := [], txNextID := 1,
    payments := [], paymentNextID := 1 }

def reqD9 : PaymentRequest :=
  { walletID := 1, amount := 500, provider := PaymentProvider.midtrans,
    description := "top up", redirectURL := "", callbackURL := "" }

/-- A gateway whose ProcessPayment always fails. -/
def gwD9 : GatewayRequest → Except Err GatewayResponse :=
  fun _ => .error (Err.external "gateway down")

def gwsD9 : PaymentProvider → Option (GatewayRequest → Except Err GatewayResponse) :=
  fun p => if p = PaymentProvider.midtrans then some gwD9 else none

/-! ## Reconciliation lemmas -/

theorem findTx_isSome_of_mem {x : Transaction} {l : List Transaction} (h : x ∈ l) :
    (findTx l x.id).isSome := by
  induction l with
  | nil => cases h
  | cons a as ih =>
    by_cases ha : a.id = x.id
    · simp [findTx, ha]
    · rcases List.mem_cons.mp h with h1 | h2
      · exact absurd (by rw [h1]) ha
      · simp only [findTx, if_neg ha]
        exact ih h2

theorem mem_findPendingTransactions {x : Transaction} {l : List Transaction} {c : Int} :
    x ∈ findPendingTransactions l c
      ↔ x ∈ l ∧ x.status = TransactionStatus.pending ∧ x.createdAt < c := by
  induction l with
  | nil => simp [findPendingTransactions]
  | cons t ts ih =>
    rw [findPendingTransactions]
    split
    next hp =>
      constructor
      · intro hx
        rcases List.mem_cons.mp hx with h1 | h2
        · subst h1
          exact ⟨List.mem_cons_self _ _, hp⟩
        · obtain ⟨hm, hq⟩ := ih.mp h2
          exact ⟨List.mem_cons_of_mem _ hm, hq⟩
      · intro hmq
        obtain ⟨hm, hq⟩ := hmq
        rcases List.mem_cons.mp hm with h1 | h2
        · subst h1
          exact List.mem_cons_self _ _
        · exact List.mem_cons_of_mem _ (ih.mpr ⟨h2, hq⟩)
    next hp =>
      rw [ih]
      constructor
      · intro hmq
        obtain ⟨hm, hq⟩ := hmq
        exact ⟨List.mem_cons_of_mem _ hm, hq⟩
      · intro hmq
        obtain ⟨hm, hq⟩ := hmq
        rcases List.mem_cons.mp hm with h1 | h2
        · subst h1
          exact absurd hq hp
        · exact ⟨h2, hq⟩

theorem setTxStatus_map_id (l : List Transaction) (id : Int) (s : TransactionStatus)
    (now : Int) :
    (setTxStatus l id s now).map (fun t => t.id) = l.map (fun t => t.id) := by
  induction l with
  | nil => rfl
  | cons t ts ih =>
    rw [setTxStatus]
    split
    · simp
    · simp [ih]

theorem findTx_setTxStatus_isSome (l : List Transaction) (id : Int)
    (s : TransactionStatus) (now i : Int) :
    (findTx (setTxStatus l id s now) i).isSome = (findTx l i).isSome := by
  induction l with
  | nil => rfl
  | cons t ts ih =>
    by_cases ht : t.id = id
    · rw [setTxStatus, if_pos ht]
      by_cases hi : t.id = i
      · simp [findTx, hi]
      · simp [findTx, hi]
    · rw [setTxStatus, if_neg ht]
      by_cases hi : t.id = i
      · simp [findTx, hi]
      · simp [findTx, hi, ih]

theorem markList_nil (curr : List Transaction) (now : Int) :
    markList [] curr now = curr := by
  induction curr with
  | nil => rfl
  | cons x xs ih =>
    rw [markList]
    simp [ih]

theorem markList_eq_map (l : List Transaction) (curr : List Transaction) (now : Int) :
    markList l curr now
      = curr.map (fun x => if l.any (fun t => t.id = x.id) then failMark x now else x) := by
  induction curr with
  | nil => rfl
  | cons x xs ih =>
    rw [markList, List.map_cons, ih]

theorem markList_setTxStatus (t : Transaction) (ts : List Transaction)
    (curr : List Transaction) (now : Int)
    (hnd : (curr.map (fun x => x.id)).Nodup) :
    markList ts (setTxStatus curr t.id TransactionStatus.failed now) now
      = markList (t :: ts) curr now := by
  induction curr with
  | nil => rfl
  | cons x xs ih =>
    rw [List.map_cons, List.nodup_cons] at hnd
    obtain ⟨hnotin, hnd2⟩ := hnd
    by_cases hx : x.id = t.id
    · rw [setTxStatus, if_pos hx, markList, markList]
      congr 1
      · have hcond : (t :: ts).any (fun u => u.id = x.id) = true := by
          simp [List.any_cons, hx.symm]
        rw [if_pos hcond]
        simp [failMark]
      · rw [markList_eq_map, markList_eq_map]
        apply List.map_congr_left
        intro y hy
        have hyne : ¬ (t.id = y.id) := by
          intro hcontra
          exact hnotin (List.mem_map.mpr ⟨y, hy, (hx.trans hcontra).symm⟩)
        simp [List.any_cons, hyne]
    · rw [setTxStatus, if_neg hx, markList, markList]
      congr 1
      · have hne : ¬ (t.id = x.id) := fun hh => hx hh.symm
        simp [List.any_cons, hne]
      · exact ih hnd2

theorem any_pending_iff (curr : List Transaction) (cutoff : Int) (x : Transaction)
    (hx : x ∈ curr) (hnd : (curr.map (fun t => t.id)).Nodup) :
    ((findPendingTransactions curr cutoff).any (fun t => t.id = x.id) = true)
      ↔ (x.status = TransactionStatus.pending ∧ x.createdAt < cutoff) := by
  constructor
  · intro h
    obtain ⟨t, htmem, htid⟩ := List.any_eq_true.mp h
    have htid2 : t.id = x.id := of_decide_eq_true htid
    obtain ⟨htl, htp⟩ := mem_findPendingTransactions.mp htmem
    have hteq : t = x := List.inj_on_of_nodup_map hnd htl hx htid2
    exact hteq ▸ htp
  · intro hp
    exact List.any_eq_true.mpr
      ⟨x, mem_findPendingTransactions.mpr ⟨hx, hp⟩, by simp⟩

theorem markList_pending (curr : List Transaction) (cutoff now : Int)
    (hnd : (curr.map (fun t => t.id)).Nodup) :
    markList (findPendingTransactions curr cutoff) curr now
      = curr.map
          (fun t => if t.status = TransactionStatus.pending ∧ t.createdAt < cutoff
                    then failMark t now else t) := by
  rw [markList_eq_map]
  apply List.map_congr_left
  intro x hx
  by_cases hp : x.status = TransactionStatus.pending ∧ x.createdAt < cutoff
  · rw [if_pos ((any_pending_iff curr cutoff x hx hnd).mpr hp), if_pos hp]
  · rw [if_neg (fun hh => hp ((any_pending_iff curr cutoff x hx hnd).mp hh)), if_neg hp]

theorem reconLoop_counts (ok : Int → Bool) (now : Int) (l : List Transaction) :
    ∀ (st : LedgerState) (r f : Nat),
      (reconLoop ok now l st r f).2.1 + (reconLoop ok now l st r f).2.2
        = r + f + l.length := by
  induction l with
  | nil =>
    intro st r f
    simp [reconLoop]
  | cons t ts ih =>
    intro st r f
    simp only [reconLoop]
    split
    · rw [ih]
      simp only [List.length_cons]
      omega
    · rw [ih]
      simp only [List.length_cons]
      omega

theorem reconLoop_allok (now : Int) (l : List Transaction) :
    ∀ (st : LedgerState) (r f : Nat),
      ((st.transactions.map (fun t => t.id)).Nodup) →
      (∀ t ∈ l, (findTx st.transactions t.id).isSome) →
      reconLoop (fun _ => true) now l st r f
        = ({ st with transactions := markList l st.transactions now }, r + l.length, f) := by
  induction l with
  | nil =>
    intro st r f hnd hmem
    simp [reconLoop, markList_nil]
  | cons t ts ih =>
    intro st r f hnd hmem
    have hsome : (findTx st.transactions t.id).isSome :=
      hmem t (List.mem_cons_self _ _)
    have hstep : reconLoop (fun _ => true) now (t :: ts) st r f
        = reconLoop (fun _ => true) now ts
            { st with transactions := setTxStatus st.transactions t.id
                        TransactionStatus.failed now }
            (r + 1) f := by
      simp [reconLoop, txUpdateStatus, hsome]
    rw [hstep]
    rw [ih _ (r + 1) f
          (by simpa [setTxStatus_map_id] using hnd)
          (by
            intro u hu
            simpa [findTx_setTxStatus_isSome] using
              hmem u (List.mem_cons_of_mem _ hu))]
    rw [markList_setTxStatus t ts st.transactions now hnd]
    have harith : r + 1 + ts.length = r + (t :: ts).length := by
      simp only [List.length_cons]
      omega
    rw [harith]

theorem findTx_putTx_self (ts : List Transaction) (t : Transaction) :
    findTx (putTx ts t) t.id = some t := by
  induction ts with
  | nil => simp [putTx, findTx]
  | cons x xs ih =>
    by_cases hx : x.id = t.id
    · simp [putTx, hx, findTx]
    · simp [putTx, hx, findTx, ih]

theorem findPayment_putPayment_self (ps : List Payment) (p : Payment) :
    findPayment (putPayment ps p) p.id = some p := by
  induction ps with
  | nil => simp [putPayment, findPayment]
  | cons x xs ih =>
    by_cases hx : x.id = p.id
    · simp [putPayment, hx, findPayment]
    · simp [putPayment, hx, findPayment, ih]

theorem findTx_setTxStatus_self (l : List Transaction) (id : Int)
    (s : TransactionStatus) (now : Int) :
    findTx (setTxStatus l id s now) id
      = (findTx l id).map
          (fun t =>
            { t with
              status := s
              updatedAt := now
              completedAt := if s = TransactionStatus.completed then some now
                             else t.completedAt }) := by
  induction l with
  | nil => rfl
  | cons t ts ih =>
    by_cases ht : t.id = id
    · rw [setTxStatus, if_pos ht]
      simp [findTx, ht]
    · rw [setTxStatus, if_neg ht]
      simp [findTx, ht, ih]

/-! ## Claim theorems -/

/-- C1: evaluation of the spec scenario on the code. Deposit(walletID=1,
amount=100) on a fresh ACTIVE wallet holding 0 returns a COMPLETED DEPOSIT
transaction of amount 100 with no error, yet the stored balance stays 0:
Wallet.Credit rejects any amount exceeding the current balance, and Deposit
ignores the credit failure and completes anyway. This contradicts both the
claimed success law balance_after = balance_before + a and the concrete
scenario (and the repository test TestWalletService on Deposit). -/
theorem deposit_scenario_c1 :
    okStatus (deposit stD1 1 100 "Test deposit" 9).1 = some TransactionStatus.completed
    ∧ okTxType (deposit stD1 1 100 "Test deposit" 9).1 = some TransactionType.deposit
    ∧ okAmount (deposit stD1 1 100 "Test deposit" 9).1 = some 100
    ∧ (findWallet (deposit stD1 1 100 "Test deposit" 9).2.wallets 1).map
        (fun w => w.balance) = some 0 := by
  decide

/-- C2: evaluation of the spec scenario on the code. Transfer(A, B, 50) with
A holding 200 USD and B holding 0 USD fails with the domain insufficient
balance error, because Wallet.Credit on the destination requires
balance at least amount. The stored balances stay 200 and 0 and the stored
transfer transaction is FAILED, contradicting the claimed success with
balances 150 and 50 and a COMPLETED transaction (and the repository test
TestWalletService on Transfer). -/
theorem transfer_scenario_c2 :
    (transfer stD2 1 2 50 "Test transfer" 9).1 = .error Err.errDomainInsufficientBalance
    ∧ (findWallet (transfer stD2 1 2 50 "Test transfer" 9).2.wallets 1).map
        (fun w => w.balance) = some 200
    ∧ (findWallet (transfer stD2 1 2 50 "Test transfer" 9).2.wallets 2).map
        (fun w => w.balance) = some 0
    ∧ (findTx (transfer stD2 1 2 50 "Test transfer" 9).2.transactions 1).map
        (fun t => t.status) = some TransactionStatus.failed := by
  decide

/-- C3: evaluation showing that COMPLETED and FAILED are not terminal in the
code. The same Deposit call (stD3, walletID 1, amount 100) first persists
transaction 1 as FAILED after the credit step fails, then re-marks the very
same record COMPLETED and persists it, because the credit failure branch of
Deposit does not return. The first conjunct certifies that txD3 is exactly
the pending transaction the call creates; the second exhibits the persisted
FAILED status at the mid-call state; the rest exhibit the final COMPLETED
status of the same record and of the returned transaction. -/
theorem terminal_status_c3 :
    (NewTransaction 1 TransactionType.deposit 100 "d" 9).map
        (fun t => { t with status := TransactionStatus.pending }) = .ok txD3
    ∧ (findTx stD3mid.transactions 1).map (fun t => t.status)
        = some TransactionStatus.failed
    ∧ (findTx (deposit stD3 1 100 "d" 9).2.transactions 1).map (fun t => t.status)
        = some TransactionStatus.completed
    ∧ okStatus (deposit stD3 1 100 "d" 9).1 = some TransactionStatus.completed := by
  decide

/-- C4: evaluation of a credit-step failure in Deposit. With the wallet at
balance 10, the credit of 25 fails (first conjunct), and the claim says the
call must return the underlying error with the transaction FAILED; instead
the call returns success with the transaction re-marked COMPLETED. The
stored balance is indeed unchanged (last conjunct), so only the
return-the-error part of the claim is broken. -/
theorem deposit_credit_failure_c4 :
    wD4.Credit 25 9 = .error Err.errDomainInsufficientBalance
    ∧ okStatus (deposit stD4 1 25 "top-up" 9).1 = some TransactionStatus.completed
    ∧ (findTx (deposit stD4 1 25 "top-up" 9).2.transactions 1).map (fun t => t.status)
        = some TransactionStatus.completed
    ∧ (findWallet (deposit stD4 1 25 "top-up" 9).2.wallets 1).map
        (fun w => w.balance) = some 10 := by
  decide

/-- C5: a successful Transfer between two distinct wallets (with the
repository-assigned positive ids) moves exactly the amount: the stored
source balance drops by the amount, the stored destination balance rises by
the amount, and the sum of the two stored balances is unchanged. -/
theorem transfer_conservation_c5 (st : LedgerState) (fromWalletID toWalletID amount : Int)
    (d : String) (now : Int)
    (hne : fromWalletID ≠ toWalletID) (hf0 : fromWalletID ≠ 0) (ht0 : toWalletID ≠ 0)
    (hok : ∃ tx, (transfer st fromWalletID toWalletID amount d now).1 = Except.ok tx) :
    ∃ wf wt wf' wt',
      findWallet st.wallets fromWalletID = some wf
      ∧ findWallet st.wallets toWalletID = some wt
      ∧ findWallet (transfer st fromWalletID toWalletID amount d now).2.wallets
          fromWalletID = some wf'
      ∧ findWallet (transfer st fromWalletID toWalletID amount d now).2.wallets
          toWalletID = some wt'
      ∧ wf'.balance = wf.balance - amount
      ∧ wt'.balance = wt.balance + amount
      ∧ wf'.balance + wt'.balance = wf.balance + wt.balance := by
  obtain ⟨tx, htx⟩ := hok
  rcases hcall : transfer st fromWalletID toWalletID amount d now with ⟨res, st'⟩
  rw [hcall] at htx
  simp only at htx
  subst htx
  have hgoal : transfer st fromWalletID toWalletID amount d now = (Except.ok tx, st') :=
    hcall
  simp only [transfer] at hcall
  split at hcall
  · exact Except.noConfusion (congrArg Prod.fst hcall)
  split at hcall
  · exact Except.noConfusion (congrArg Prod.fst hcall)
  next fromWallet hfw =>
  split at hcall
  · exact Except.noConfusion (congrArg Prod.fst hcall)
  next toWallet htw =>
  split at hcall
  · exact Except.noConfusion (congrArg Prod.fst hcall)
  split at hcall
  · exact Except.noConfusion (congrArg Prod.fst hcall)
  next tx0 hnew =>
  split at hcall
  · exact Except.noConfusion (congrArg Prod.fst hcall)
  next st1 tx1 hcre =>
  split at hcall
  · exact Except.noConfusion (congrArg Prod.fst hcall)
  next fromW hdeb =>
  split at hcall
  · exact Except.noConfusion (congrArg Prod.fst hcall)
  next toW hcred =>
  split at hcall
  · exact Except.noConfusion (congrArg Prod.fst hcall)
  next st2 w2 hsv1 =>
  split at hcall
  · exact Except.noConfusion (congrArg Prod.fst hcall)
  next st3 w3 hsv2 =>
  split at hcall
  · exact Except.noConfusion (congrArg Prod.fst hcall)
  next st4 hupd =>
  -- success branch: extract the state equalities
  have hstEq : st' = st4 := by
    injection hcall with h1 h2
    exact h2.symm
  have hfid : fromWallet.id = fromWalletID := findWallet_some_id hfw
  have htid : toWallet.id = toWalletID := findWallet_some_id htw
  have hfromW : fromW
      = { fromWallet with balance := fromWallet.balance - amount, updatedAt := now } := by
    rw [Wallet.Debit] at hdeb
    split at hdeb
    · exact Except.noConfusion hdeb
    split at hdeb
    · exact Except.noConfusion hdeb
    split at hdeb
    · exact Except.noConfusion hdeb
    injection hdeb with h
    exact h.symm
  have htoW : toW
      = { toWallet with balance := toWallet.balance + amount, updatedAt := now } := by
    rw [Wallet.Credit] at hcred
    split at hcred
    · exact Except.noConfusion hcred
    split at hcred
    · exact Except.noConfusion hcred
    split at hcred
    · exact Except.noConfusion hcred
    injection hcred with h
    exact h.symm
  have hfromWid : fromW.id = fromWalletID := by rw [hfromW]; exact hfid
  have htoWid : toW.id = toWalletID := by rw [htoW]; exact htid
  have hst1w : st1.wallets = st.wallets := by
    rw [txCreate] at hcre
    split at hcre
    · injection hcre with h
      injection h with h1 h2
      rw [← h1]
    · injection hcre with h
      injection h with h1 h2
      rw [← h1]
  have hst2 : st2 = { st1 with wallets := putWallet st1.wallets fromW } := by
    rw [walletSave, if_neg (hfromWid ▸ hf0)] at hsv1
    injection hsv1 with h
    injection h with h1 h2
    exact h1.symm
  have hst3 : st3 = { st2 with wallets := putWallet st2.wallets toW } := by
    rw [walletSave, if_neg (htoWid ▸ ht0)] at hsv2
    injection hsv2 with h
    injection h with h1 h2
    exact h1.symm
  have hst4w : st4.wallets = st3.wallets := by
    rw [txUpdate] at hupd
    split at hupd
    · injection hupd with h
      rw [← h]
    · exact Except.noConfusion hupd
  refine ⟨fromWallet, toWallet, fromW, toW, hfw, htw, ?_, ?_, ?_, ?_, ?_⟩
  · show findWallet st'.wallets fromWalletID = some fromW
    rw [hstEq, hst4w, hst3]
    show findWallet (putWallet st2.wallets toW) fromWalletID = some fromW
    rw [findWallet_putWallet_other _ _ _ (htoWid ▸ hne), hst2]
    show findWallet (putWallet st1.wallets fromW) fromWalletID = some fromW
    rw [← hfromWid]
    exact findWallet_putWallet_self _ _
  · show findWallet st'.wallets toWalletID = some toW
    rw [hstEq, hst4w, hst3]
    show findWallet (putWallet st2.wallets toW) toWalletID = some toW
    rw [← htoWid]
    exact findWallet_putWallet_self _ _
  · rw [hfromW]
  · rw [htoW]
  · rw [hfromW, htoW]
    show fromWallet.balance - amount + (toWallet.balance + amount)
        = fromWallet.balance + toWallet.balance
    ring

/-- Source wallet of the C5 witness: USD, 200, ACTIVE. -/
def wD5a : Wallet :=
  { id := 1, userID := 1, balance := 200, currencyCode := "USD", description := "",
    status := WalletStatus.active, createdAt := 0, updatedAt := 0 }

/-- Destination wallet of the C5 witness: USD, 100, ACTIVE. -/
def wD5b : Wallet :=
  { id := 2, userID := 2, balance := 100, currencyCode := "USD", description := "",
    status := WalletStatus.active, createdAt := 0, updatedAt := 0 }

def stD5 : LedgerState :=
  { wallets := [wD5a, wD5b], walletNextID := 3, transactions := [], txNextID := 1,
    payments := [], paymentNextID := 1 }

/-- C5 witness: a transfer of 50 from the wallet holding 200 to the wallet
holding 100 succeeds; the conclusion instantiates the conservation law. -/
theorem transfer_conservation_c5_witness :
    ((1:Int) ≠ 2 ∧ (1:Int) ≠ 0 ∧ (2:Int) ≠ 0
      ∧ ∃ tx, (transfer stD5 1 2 50 "t" 9).1 = Except.ok tx)
    ∧ ∃ wf wt wf' wt',
        findWallet stD5.wallets 1 = some wf
        ∧ findWallet stD5.wallets 2 = some wt
        ∧ findWallet (transfer stD5 1 2 50 "t" 9).2.wallets 1 = some wf'
        ∧ findWallet (transfer stD5 1 2 50 "t" 9).2.wallets 2 = some wt'
        ∧ wf'.balance = wf.balance - 50
        ∧ wt'.balance = wt.balance + 50
        ∧ wf'.balance + wt'.balance = wf.balance + wt.balance :=
  ⟨⟨by decide, by decide, by decide, ⟨_, rfl⟩⟩,
   transfer_conservation_c5 stD5 1 2 50 "t" 9 (by decide) (by decide) (by decide)
     ⟨_, rfl⟩⟩

/-- C6: Withdraw with amount exceeding the (non-negative) balance fails with
the insufficient balance error of the service pre-check and returns the
ledger unchanged: no transaction record is created and the balance is
untouched. -/
theorem withdraw_insufficient_c6 (st : LedgerState) (walletID amount : Int)
    (d : String) (now : Int) (w : Wallet)
    (hw : findWallet st.wallets walletID = some w)
    (hnn : 0 ≤ w.balance) (hlt : w.balance < amount) :
    withdraw st walletID amount d now = (.error Err.errInsufficientBalance, st) := by
  have hpos : ¬ amount ≤ 0 := by omega
  unfold withdraw
  rw [if_neg hpos, hw]
  simp [hlt]

/-- C6 witness: balance 100, withdrawal of 500. -/
theorem withdraw_insufficient_c6_witness :
    (findWallet stD6.wallets 1 = some wD6 ∧ (0:Int) ≤ wD6.balance ∧ wD6.balance < 500)
    ∧ withdraw stD6 1 500 "w" 9 = (.error Err.errInsufficientBalance, stD6) :=
  ⟨⟨by decide, by decide, by decide⟩,
   withdraw_insufficient_c6 stD6 1 500 "w" 9 wD6 (by decide) (by decide) (by decide)⟩

/-- C7: every operation with amount at most 0 fails with the service
invalid amount error before touching the ledger: the state, in particular
the transaction store, is returned unchanged. -/
theorem invalid_amount_c7 (st : LedgerState) (walletID toWalletID amount : Int)
    (d : String) (now : Int) (h : amount ≤ 0) :
    deposit st walletID amount d now = (.error Err.errInvalidAmount, st)
    ∧ withdraw st walletID amount d now = (.error Err.errInvalidAmount, st)
    ∧ transfer st walletID toWalletID amount d now = (.error Err.errInvalidAmount, st) := by
  refine ⟨?_, ?_, ?_⟩ <;> simp [deposit, withdraw, transfer, h]

/-- C7 witness: amount 0 on a concrete ledger. -/
theorem invalid_amount_c7_witness :
    ((0:Int) ≤ 0)
    ∧ (deposit stD7 1 0 "d" 9 = (.error Err.errInvalidAmount, stD7)
       ∧ withdraw stD7 1 0 "d" 9 = (.error Err.errInvalidAmount, stD7)
       ∧ transfer stD7 1 2 0 "d" 9 = (.error Err.errInvalidAmount, stD7)) :=
  ⟨by decide, invalid_amount_c7 stD7 1 2 0 "d" 9 (by decide)⟩

/-- C8: ReconcileFailedTransactions scans the PENDING transactions strictly
older than 30 minutes. For any pattern of individual update outcomes the
loop walks the whole worklist, never aborting early, and the success and
failure counters sum to the worklist length; when no update failed the call
returns ok, and when some update failed it returns the aggregate error
naming both counters. With the fault-free store every scanned record and no
other is transitioned to FAILED: the final store maps exactly the stale
PENDING records through the FAILED status write. Stated for stores with
distinct transaction ids, the invariant the keyed memory store maintains. -/
theorem reconcile_c8 (st : LedgerState) (now : Int) (ok : Int → Bool)
    (hnd : (st.transactions.map (fun t => t.id)).Nodup) :
    ((reconLoop ok now (findPendingTransactions st.transactions (now - 30 * 60)) st 0 0).2.1
      + (reconLoop ok now (findPendingTransactions st.transactions (now - 30 * 60)) st 0 0).2.2
      = (findPendingTransactions st.transactions (now - 30 * 60)).length)
    ∧ ((reconLoop ok now (findPendingTransactions st.transactions (now - 30 * 60)) st 0 0).2.2 = 0 →
        (reconcileFailedTransactions st now ok).1 = .ok ())
    ∧ (0 < (reconLoop ok now (findPendingTransactions st.transactions (now - 30 * 60)) st 0 0).2.2 →
        (reconcileFailedTransactions st now ok).1
          = .error (.reconcileAggregate
              (reconLoop ok now (findPendingTransactions st.transactions (now - 30 * 60)) st 0 0).2.1
              (reconLoop ok now (findPendingTransactions st.transactions (now - 30 * 60)) st 0 0).2.2))
    ∧ ((reconcileFailedTransactions st now (fun _ => true)).1 = .ok ())
    ∧ ((reconcileFailedTransactions st now (fun _ => true)).2.transactions
        = st.transactions.map
            (fun t => if t.status = TransactionStatus.pending ∧ t.createdAt < now - 30 * 60
                      then failMark t now else t)) := by
  have hallok := reconLoop_allok now
      (findPendingTransactions st.transactions (now - 30 * 60)) st 0 0 hnd
      (fun t ht => findTx_isSome_of_mem (mem_findPendingTransactions.mp ht).1)
  refine ⟨?_, ?_, ?_, ?_, ?_⟩
  · have h := reconLoop_counts ok now
        (findPendingTransactions st.transactions (now - 30 * 60)) st 0 0
    simpa using h
  · intro hzero
    rcases hr : reconLoop ok now
        (findPendingTransactions st.transactions (now - 30 * 60)) st 0 0 with ⟨st1, r, f⟩
    rw [hr] at hzero
    simp only at hzero
    unfold reconcileFailedTransactions
    simp only []
    rw [hr]
    simp [hzero]
  · intro hposf
    rcases hr : reconLoop ok now
        (findPendingTransactions st.transactions (now - 30 * 60)) st 0 0 with ⟨st1, r, f⟩
    rw [hr] at hposf
    simp only at hposf
    unfold reconcileFailedTransactions
    simp only []
    rw [hr]
    simp [hposf]
  · unfold reconcileFailedTransactions
    simp only []
    rw [hallok]
    simp
  · unfold reconcileFailedTransactions
    simp only []
    rw [hallok]
    show markList (findPendingTransactions st.transactions (now - 30 * 60))
        st.transactions now
      = st.transactions.map
          (fun t => if t.status = TransactionStatus.pending ∧ t.createdAt < now - 30 * 60
                    then failMark t now else t)
    exact markList_pending st.transactions (now - 30 * 60) now hnd

/-- C8 witness: at now = 10000 with one transaction PENDING for 45 minutes
and one PENDING for 5 minutes, under the fault-free store. -/
theorem reconcile_c8_witness :
    ((stD8.transactions.map (fun t => t.id)).Nodup)
    ∧ (((reconLoop (fun _ => true) 10000
          (findPendingTransactions stD8.transactions (10000 - 30 * 60)) stD8 0 0).2.1
        + (reconLoop (fun _ => true) 10000
            (findPendingTransactions stD8.transactions (10000 - 30 * 60)) stD8 0 0).2.2
        = (findPendingTransactions stD8.transactions (10000 - 30 * 60)).length)
      ∧ ((reconLoop (fun _ => true) 10000
            (findPendingTransactions stD8.transactions (10000 - 30 * 60)) stD8 0 0).2.2 = 0 →
          (reconcileFailedTransactions stD8 10000 (fun _ => true)).1 = .ok ())
      ∧ (0 < (reconLoop (fun _ => true) 10000
            (findPendingTransactions stD8.transactions (10000 - 30 * 60)) stD8 0 0).2.2 →
          (reconcileFailedTransactions stD8 10000 (fun _ => true)).1
            = .error (.reconcileAggregate
                (reconLoop (fun _ => true) 10000
                  (findPendingTransactions stD8.transactions (10000 - 30 * 60)) stD8 0 0).2.1
                (reconLoop (fun _ => true) 10000
                  (findPendingTransactions stD8.transactions (10000 - 30 * 60)) stD8 0 0).2.2))
      ∧ ((reconcileFailedTransactions stD8 10000 (fun _ => true)).1 = .ok ())
      ∧ ((reconcileFailedTransactions stD8 10000 (fun _ => true)).2.transactions
          = stD8.transactions.map
              (fun t => if t.status = TransactionStatus.pending ∧ t.createdAt < 10000 - 30 * 60
                        then failMark t 10000 else t))) :=
  ⟨by decide, reconcile_c8 stD8 10000 (fun _ => true) (by decide)⟩

/-- C10: for an ACTIVE wallet and a positive amount, Wallet.Credit succeeds,
adding exactly the amount, precisely when the current balance is at least
the amount; when the balance is smaller it returns the domain insufficient
balance error (and, being pure, leaves the wallet value unchanged). -/
theorem credit_guard_c10 (w : Wallet) (amount now : Int)
    (hact : w.status = WalletStatus.active) (hpos : 0 < amount) :
    (w.Credit amount now
        = .ok { w with balance := w.balance + amount, updatedAt := now }
      ↔ amount ≤ w.balance)
    ∧ (w.balance < amount →
        w.Credit amount now = .error Err.errDomainInsufficientBalance) := by
  have h1 : ¬ amount ≤ 0 := by omega
  constructor
  · by_cases hb : w.balance < amount
    · simp [Wallet.Credit, h1, hact, hb]
    · simp [Wallet.Credit, h1, hact, hb]
      omega
  · intro hb
    simp [Wallet.Credit, h1, hact, hb]

/-- C10 witness: ACTIVE wallet holding 50, credit of 30. -/
theorem credit_guard_c10_witness :
    (wD10.status = WalletStatus.active ∧ (0:Int) < 30)
    ∧ ((wD10.Credit 30 9
          = .ok { wD10 with balance := wD10.balance + 30, updatedAt := 9 }
        ↔ (30:Int) ≤ wD10.balance)
       ∧ (wD10.balance < 30 →
          wD10.Credit 30 9 = .error Err.errDomainInsufficientBalance)) :=
  ⟨⟨by decide, by decide⟩, credit_guard_c10 wD10 30 9 (by decide) (by decide)⟩

theorem findTx_putTx_at (ts : List Transaction) (t : Transaction) (i : Int)
    (h : t.id = i) : findTx (putTx ts t) i = some t :=
  h ▸ findTx_putTx_self ts t

theorem findPayment_putPayment_at (ps : List Payment) (p : Payment) (i : Int)
    (h : p.id = i) : findPayment (putPayment ps p) i = some p :=
  h ▸ findPayment_putPayment_self ps p

theorem findTx_setTxStatus_at (l : List Transaction) (id : Int)
    (s : TransactionStatus) (now i : Int) (h : id = i) :
    findTx (setTxStatus l id s now) i
      = (findTx l i).map
          (fun t =>
            { t with
              status := s
              updatedAt := now
              completedAt := if s = TransactionStatus.completed then some now
                             else t.completedAt }) :=
  h ▸ findTx_setTxStatus_self l id s now

/-- C9 counterexample: at a concrete ledger with an always-failing gateway,
ProcessPayment returns the gateway error wrapped in the message payment
gateway error, which is not the ErrPaymentGatewayFailed sentinel of the
claim. -/
theorem gateway_error_cex_c9 :
    (processPayment stD9 reqD9 gwsD9 9).1
      = .error (Err.wrapped "payment gateway error" (Err.external "gateway down"))
    ∧ (processPayment stD9 reqD9 gwsD9 9).1 ≠ .error Err.errPaymentGatewayFailed := by
  decide

/-- C9 as amended: when the gateway call made after the DEPOSIT transaction
and the payment have been persisted returns an error, ProcessPayment
transitions the payment to FAILED and persists it, updates the linked
transaction status to FAILED, leaves every wallet untouched, and returns the
gateway error wrapped in the message payment gateway error (not the
ErrPaymentGatewayFailed sentinel). -/
theorem gateway_error_c9 (st : LedgerState) (req : PaymentRequest)
    (gws : PaymentProvider → Option (GatewayRequest → Except Err GatewayResponse))
    (now : Int) (wallet : Wallet) (gw : GatewayRequest → Except Err GatewayResponse)
    (g : Err)
    (hamt : 0 < req.amount)
    (hw : findWallet st.wallets req.walletID = some wallet)
    (hgw : gws req.provider = some gw)
    (hfail : gw (mkGatewayRequest req wallet st.paymentNextID) = .error g) :
    (processPayment st req gws now).1 = .error (.wrapped "payment gateway error" g)
    ∧ (processPayment st req gws now).2.wallets = st.wallets
    ∧ (findPayment (processPayment st req gws now).2.payments st.paymentNextID).map
        (fun p => (p.status, p.transactionID))
        = some (PaymentStatus.failed, st.txNextID)
    ∧ (findTx (processPayment st req gws now).2.transactions st.txNextID).map
        (fun t => t.status) = some TransactionStatus.failed := by
  have hna : ¬ req.amount ≤ 0 := by omega
  simp [processPayment, if_neg hna, hw, hgw, NewTransaction, NewPayment,
    txCreate, paymentCreate, Payment.Fail, paymentUpdateD, paymentUpdate,
    txUpdateStatusD, txUpdateStatus, hfail, findPayment_putPayment_at,
    findTx_putTx_at, findTx_setTxStatus_at]

/-- C9 witness: the amended theorem applied at the concrete ledger stD9 with
the always-failing midtrans gateway. -/
theorem gateway_error_c9_witness :
    ((0:Int) < reqD9.amount
      ∧ findWallet stD9.wallets reqD9.walletID = some wD9
      ∧ gwsD9 reqD9.provider = some gwD9
      ∧ gwD9 (mkGatewayRequest reqD9 wD9 stD9.paymentNextID)
          = .error (Err.external "gateway down"))
    ∧ ((processPayment stD9 reqD9 gwsD9 9).1
        = .error (.wrapped "payment gateway error" (Err.external "gateway down"))
      ∧ (processPayment stD9 reqD9 gwsD9 9).2.wallets = stD9.wallets
      ∧ (findPayment (processPayment stD9 reqD9 gwsD9 9).2.payments stD9.paymentNextID).map
          (fun p => (p.status, p.transactionID))
          = some (PaymentStatus.failed, stD9.txNextID)
      ∧ (findTx (processPayment stD9 reqD9 gwsD9 9).2.transactions stD9.txNextID).map
          (fun t => t.status) = some TransactionStatus.failed) :=
  ⟨⟨by decide, by decide, rfl, rfl⟩,
   gateway_error_c9 stD9 reqD9 gwsD9 9 wD9 gwD9 (Err.external "gateway down")
     (by decide) (by decide) rfl rfl⟩

end EWallet
